import Mathlib

/-!
Verification of the WhatsApp statement bot (`src/index.js`).

The development shallowly embeds the core of the program:

* the phone-number candidate generation of `findPartyByPhoneNumber`
  (JS `String.replace` with the non-global regex `/(\d{5})(\d{5})/`,
  regex-metacharacter escaping, unanchored regex matching),
* the statement availability check `checkForStatement`,
* the per-message orchestration `processWhatsAppRequest` /
  `generateAndSendStatement` together with the request audit record,
  modelled as a pure state-passing function with explicit fault
  injection for every I/O step (each fault site carries an optional
  fault description; `none` means the step succeeds, `some m` means the
  step throws an error whose `.message` is `m`).

Strings are modelled by `List Char` in the matcher layer (character-level
reasoning) and by `String` in the pipeline layer.  All definitions are
computable and follow the JavaScript source line by line; the audit
store is modelled by the explicit operation trace `RunState.ops`, so
"read-only" functions are exactly the ones that take `Env` and return a
value without touching a `RunState`.
-/

set_option autoImplicit false

namespace SMT

/-! ## Phone matcher: candidate generation (src/index.js lines 229-235) -/

/-- The character class `[.*+?^${}()|[\]\\]` used by the escaping step in
`findPartyByPhoneNumber` (src/index.js line 239). -/
def isRegexMeta (c : Char) : Bool :=
  c = '.' || c = '*' || c = '+' || c = '?' || c = '^' || c = '$' ||
  c = Char.ofNat 0x7b || c = Char.ofNat 0x7d || c = '(' || c = ')' ||
  c = '|' || c = '[' || c = ']' || c = '\\'

/-- Model of the escaping step `pattern.replace(/[.*+?^${}()|[\]\\]/g, "\\$&")`:
put a backslash in front of every regex metacharacter. -/
def escapeRegex : List Char → List Char
  | [] => []
  | c :: rest => (if isRegexMeta c then ['\\', c] else [c]) ++ escapeRegex rest

/-- Does a ten-digit run start at the head of the list?  This is the
test performed at each position by the JS regex `/(\d{5})(\d{5})/`. -/
def tenDigitsHere (l : List Char) : Bool :=
  decide (10 ≤ l.length) && (l.take 10).all Char.isDigit

/-- Model of `str.replace(/(\d{5})(\d{5})/, "$1<sep>$2")`: find the leftmost run of
ten consecutive digits and join its two halves of five with `sep`;
if no such run exists the string is returned unchanged. -/
def replaceTen (sep : Char) : List Char → List Char
  | [] => []
  | c :: rest =>
    if tenDigitsHere (c :: rest) then
      (c :: rest).take 5 ++ sep :: ((c :: rest).drop 5).take 5 ++ (c :: rest).drop 10
    else
      c :: replaceTen sep rest

/-- Model of the template `` `(${s})` ``: wrap a string in parentheses. -/
def parenWrap (l : List Char) : List Char := '(' :: (l ++ [')'])

/-- The result of the 5+5 split on an exactly-ten-digit string. -/
def fiveFive (sep : Char) (pn : List Char) : List Char :=
  pn.take 5 ++ sep :: pn.drop 5

/-- The five search patterns built by `findPartyByPhoneNumber`
(src/index.js lines 229-235): raw digits, 5+5 space join, 5+5 hyphen
join, parenthesized raw, parenthesized space join. -/
def searchPatterns (pn : List Char) : List (List Char) :=
  [pn,
   replaceTen ' ' pn,
   replaceTen '-' pn,
   parenWrap pn,
   parenWrap (replaceTen ' ' pn)]

/-- Model of `sender.replace(/\D/g, "")` (src/index.js line 102): keep only the
digit characters. -/
def stripNonDigits (l : List Char) : List Char := l.filter Char.isDigit

/-! ## A literal-only regex interpreter

`new RegExp(p)` is applied to the escaped candidates only.  We model the
fragment of JS regex semantics these patterns can use: a pattern is a
sequence of literal characters, where a backslash followed by a
non-alphanumeric character denotes that character literally and an
unescaped metacharacter is outside the fragment (`parseEscaped` refuses
it).  An unanchored regex made only of literals accepts exactly the
strings that contain the literal sequence as a contiguous substring,
which `litsSearch` implements by trying every start position. -/

/-- Parse an escaped pattern into its sequence of literal characters.
Returns `none` when the pattern falls outside the literal-only fragment
(an unescaped metacharacter, or a backslash escape such as a character
class that does not denote a literal). -/
def parseEscaped : List Char → Option (List Char)
  | [] => some []
  | c :: rest =>
    if c = '\\' then
      match rest with
      | [] => none
      | d :: rest2 =>
        if d.isAlphanum then none else (parseEscaped rest2).map (fun l => d :: l)
    else if isRegexMeta c then none
    else (parseEscaped rest).map (fun l => c :: l)

/-- Do the literals `p` match the first `p.length` characters of `s`? -/
def litsMatchHere : List Char → List Char → Bool
  | [], _ => true
  | _ :: _, [] => false
  | p :: ps, c :: cs => p = c && litsMatchHere ps cs

/-- Unanchored search: do the literals match at some position of `s`? -/
def litsSearch (p : List Char) : List Char → Bool
  | [] => litsMatchHere p []
  | c :: cs => litsMatchHere p (c :: cs) || litsSearch p cs

/-- Semantics of `new RegExp(pat).test(s)` for patterns in the literal-only fragment. -/
def jsRegexTest (pat s : List Char) : Bool :=
  match parseEscaped pat with
  | some lits => litsSearch lits s
  | none => false

/-! ## External data model (read-only collaborator stores) -/

/-- A `PartyCode` customer record.  `customerName` and `city` are free
text and may be absent (`none` models a missing field, on which a
MongoDB regex query does not match). -/
structure Party where
  code : String
  customerName : Option String
  city : Option String
deriving DecidableEq

/-- A `Statement` record, ordered by `statementDate`. -/
structure Stmt where
  id : Nat
  statementDate : Int
deriving DecidableEq

/-- A `ReportSection` record keyed by `(statementId, partyCode)`. -/
structure ReportSection where
  statementId : Nat
  partyCode : String
deriving DecidableEq

/-- The read-only environment of one orchestration run: the collaborator
stores plus the response status of the render service. -/
structure Env where
  parties : List Party
  statements : List Stmt
  sections : List ReportSection
  renderStatus : Nat
  renderStatusText : String
deriving DecidableEq

/-- A MongoDB `$in`-of-regexes test against one optional text field: the
field matches when it is present and some candidate pattern matches it. -/
def fieldMatches (pats : List (List Char)) : Option String → Bool
  | none => false
  | some v => pats.any (fun p => jsRegexTest (escapeRegex p) v.toList)

/-- Model of `findPartyByPhoneNumber` (src/index.js lines 224-251): build the five
candidates, escape each one, and return the first party whose
`customerName` or `city` field matches any candidate. -/
def findPartyByPhoneNumber (env : Env) (phoneNumber : String) : Option Party :=
  let pats := searchPatterns phoneNumber.toList
  env.parties.find? (fun p => fieldMatches pats p.customerName || fieldMatches pats p.city)

/-- Model of `statements.find().sort({statementDate: -1}).limit(1)`: the statement
with the greatest `statementDate` (first among equal dates, a tie the
backing store leaves unspecified). -/
def latestStatement (env : Env) : Option Stmt :=
  env.statements.foldl
    (fun acc s =>
      match acc with
      | none => some s
      | some b => if b.statementDate < s.statementDate then some s else some b)
    none

/-- Model of `db.collection("ReportSection").findOne({statementId, partyCode})`. -/
def sectionFor (env : Env) (statementId : Nat) (partyCode : String) :
    Option ReportSection :=
  env.sections.find? (fun r => decide (r.statementId = statementId ∧ r.partyCode = partyCode))

/-- Model of `checkForStatement` (src/index.js lines 256-276): false when there is
no statement at all, otherwise the existence of a `ReportSection` keyed
by the id of the latest statement and the party code.  A pure read of `Env`. -/
def checkForStatement (env : Env) (partyCode : String) : Bool :=
  match latestStatement env with
  | none => false
  | some st => (sectionFor env st.id partyCode).isSome

/-! ## The request audit record and the orchestration pipeline -/

/-- The `WhatsAppRequest` audit record owned by this program. -/
structure ReqRecord where
  phoneNumber : String
  message : String
  status : String
  responseMessage : Option String
  matchedPartyCode : Option String
  matchedPartyName : Option String
  statementSent : Option Bool
  createdAt : Nat
  updatedAt : Nat
deriving DecidableEq

/-- The record inserted on message receipt (src/index.js lines 108-117). -/
def mkRequestRecord (pn msg : String) (now : Nat) : ReqRecord :=
  { phoneNumber := pn
    message := msg
    status := "RECEIVED"
    responseMessage := none
    matchedPartyCode := none
    matchedPartyName := none
    statementSent := none
    createdAt := now
    updatedAt := now }

/-- One `$set` document of an `updateOne` call: `some` fields are set,
`none` fields are left untouched. -/
structure UpdateFields where
  status : Option String := none
  responseMessage : Option String := none
  matchedPartyCode : Option String := none
  matchedPartyName : Option String := none
  statementSent : Option Bool := none
  updatedAt : Option Nat := none
deriving DecidableEq

/-- Overwrite-if-set for optional record attributes. -/
def setOpt {α : Type} (new old : Option α) : Option α :=
  match new with
  | none => old
  | some v => some v

/-- Apply a `$set` document to the record. -/
def applyUpdate (r : ReqRecord) (f : UpdateFields) : ReqRecord :=
  { r with
    status := (f.status).getD r.status
    responseMessage := setOpt f.responseMessage r.responseMessage
    matchedPartyCode := setOpt f.matchedPartyCode r.matchedPartyCode
    matchedPartyName := setOpt f.matchedPartyName r.matchedPartyName
    statementSent := setOpt f.statementSent r.statementSent
    updatedAt := (f.updatedAt).getD r.updatedAt }

/-- An operation applied to the `WhatsAppRequest` collection.  The store
API also offers deletion; the trace shows the program never uses it. -/
inductive DbOp where
  | insert (r : ReqRecord)
  | update (f : UpdateFields)
  | del
deriving DecidableEq

/-- An outbound action on the chat transport. -/
inductive Reply where
  | text (s : String)
  | doc (caption : String)
deriving DecidableEq

/-- Fault injection: each I/O step of one run either succeeds (`none`)
or throws an error with the given message (`some m`). -/
structure Faults where
  fFind : Option String := none
  fMatchWrite : Option String := none
  fCheck : Option String := none
  fLatestRead : Option String := none
  fSectionRead : Option String := none
  fRender : Option String := none
  fFileWrite : Option String := none
  fMediaLoad : Option String := none
  fReply1 : Option String := none
  fReply2 : Option String := none
  fUnlink : Option String := none
  fProcessedWrite : Option String := none
  fNoMatchWrite : Option String := none
  fNoMatchReply : Option String := none
  fNoStatementWrite : Option String := none
  fNoStatementReply : Option String := none
  fFailedWrite : Option String := none
  fApologyReply : Option String := none
  fOuterReply : Option String := none
deriving DecidableEq

/-- The fault-free run. -/
def noFaults : Faults := {}

/-- The mutable state of one orchestration run: the audit record, the
replies sent so far, the trace of audit-store operations, a logical
clock for `new Date()`, whether the scratch PDF file was written and
whether it is still on disk, and a ghost field recording the error
message caught at the `processWhatsAppRequest` catch boundary. -/
structure RunState where
  record : ReqRecord
  replies : List Reply
  ops : List DbOp
  clock : Nat
  scratchWritten : Bool
  scratchPresent : Bool
  caughtFault : Option String
deriving DecidableEq

/-- Perform an `updateOne` on the request record: apply the `$set`
document, append it to the trace, and advance the clock. -/
def doUpdate (st : RunState) (f : UpdateFields) : RunState :=
  { st with
    record := applyUpdate st.record f
    ops := st.ops ++ [DbOp.update f]
    clock := st.clock + 1 }

/-- Send a reply to the sender of the message. -/
def sendReply (st : RunState) (r : Reply) : RunState :=
  { st with replies := st.replies ++ [r] }

/-- JS `a || b` for a possibly-missing string (missing and empty are
falsy). -/
def jsOrElse (a : Option String) (b : String) : String :=
  match a with
  | none => b
  | some s => if s = "" then b else s

/-- The NO_MATCH outcome message stored on the record. -/
def noMatchDbMessage : String := "Your number isn\x27t linked with any party."

/-- The fixed NO_MATCH reply text. -/
def noMatchReplyMessage : String :=
  "Sorry, your number isn\x27t linked with any party. Please contact Sanjivan Medico Traders to add this number to their database."

/-- The generic apology reply text. -/
def apologyMessage : String :=
  "Sorry, there was an error processing your request. Please try again later."

/-- The fixed success outcome message. -/
def successMessage : String := "Statement PDF sent successfully"

/-- The NO_STATEMENT outcome message naming the party code. -/
def noStatementDbMessage (code : String) : String :=
  "No statement found for party code " ++ code

/-- The NO_STATEMENT reply text naming the party code. -/
def noStatementReplyMessage (code : String) : String :=
  "No statement found for \"" ++ code ++ "\". Please contact Sanjivan Medico Traders for more information."

/-- The introductory text reply preceding the document. -/
def introMessage (party : Party) : String :=
  "Here is your latest statement for " ++ jsOrElse party.customerName party.code ++ ":"

/-- The document caption naming the customer key. -/
def captionMessage (code : String) : String := "Statement " ++ code

/-- The message of the error thrown when no statement exists. -/
def noStatementsError : String := "No statements found in the database"

/-- The message of the error thrown when the report section is missing. -/
def noSectionError : String := "Report section not found"

/-- The wrapper message `` `Failed to generate PDF: ${msg}` ``. -/
def pdfFailMsg (m : String) : String := "Failed to generate PDF: " ++ m

/-- The NO_MATCH `$set` document (src/index.js lines 145-154). -/
def noMatchFields (now : Nat) : UpdateFields :=
  { status := some "NO_MATCH", responseMessage := some noMatchDbMessage,
    updatedAt := some now }

/-- The intermediate matched-party `$set` document (lines 165-174). -/
def matchFields (party : Party) (now : Nat) : UpdateFields :=
  { matchedPartyCode := some party.code, matchedPartyName := party.customerName,
    updatedAt := some now }

/-- The NO_STATEMENT `$set` document (lines 181-190). -/
def noStatementFields (code : String) (now : Nat) : UpdateFields :=
  { status := some "NO_STATEMENT",
    responseMessage := some (noStatementDbMessage code), updatedAt := some now }

/-- The PROCESSED `$set` document (lines 353-363). -/
def processedFields (now : Nat) : UpdateFields :=
  { status := some "PROCESSED", statementSent := some true,
    responseMessage := some successMessage, updatedAt := some now }

/-- The FAILED `$set` document written by the catch handler (lines
205-214). -/
def failedFields (m : String) (now : Nat) : UpdateFields :=
  { status := some "FAILED", responseMessage := some ("Error: " ++ m),
    updatedAt := some now }

/-- The body of the inner `try { axios ... } catch (apiError)` block of
`generateAndSendStatement` (src/index.js lines 309-364): render call,
non-200 check, scratch-file write, media load, the two replies, the
scratch-file unlink, and the PROCESSED update, in source order.  An
error result carries the thrown message and the state reached so far. -/
def innerBody (env : Env) (fl : Faults) (party : Party) (st : RunState) :
    Except (String × RunState) RunState :=
  match fl.fRender with
  | some m => .error (m, st)
  | none =>
  if env.renderStatus ≠ 200 then .error (pdfFailMsg env.renderStatusText, st)
  else
  match fl.fFileWrite with
  | some m => .error (m, st)
  | none =>
  let stW := { st with scratchWritten := true, scratchPresent := true }
  match fl.fMediaLoad with
  | some m => .error (m, stW)
  | none =>
  match fl.fReply1 with
  | some m => .error (m, stW)
  | none =>
  let st1 := sendReply stW (Reply.text (introMessage party))
  match fl.fReply2 with
  | some m => .error (m, st1)
  | none =>
  let st2 := sendReply st1 (Reply.doc (captionMessage party.code))
  match fl.fUnlink with
  | some m => .error (m, st2)
  | none =>
  let st3 := { st2 with scratchPresent := false }
  match fl.fProcessedWrite with
  | some m => .error (m, st3)
  | none =>
  .ok (doUpdate st3 (processedFields st3.clock))

/-- Model of `generateAndSendStatement` (src/index.js lines 281-372): re-read the
latest statement and its report section, then run the inner try block;
an error thrown inside the inner block is re-thrown wrapped as
`Failed to generate PDF: <message>`, and the outer catch logs and
re-throws unchanged. -/
def generateAndSendStatement (env : Env) (fl : Faults) (party : Party)
    (st : RunState) : Except (String × RunState) RunState :=
  match fl.fLatestRead with
  | some m => .error (m, st)
  | none =>
  match latestStatement env with
  | none => .error (noStatementsError, st)
  | some latest =>
  match fl.fSectionRead with
  | some m => .error (m, st)
  | none =>
  match sectionFor env latest.id party.code with
  | none => .error (noSectionError, st)
  | some _ =>
  match innerBody env fl party st with
  | .ok st1 => .ok st1
  | .error (m, st1) => .error (pdfFailMsg m, st1)

/-- The `try` body of `processWhatsAppRequest` (src/index.js lines
139-200): match the party; on no match write NO_MATCH and reply; else
write the intermediate match update, check for a statement; on none
write NO_STATEMENT and reply; else call `generateAndSendStatement`. -/
def tryBody (env : Env) (fl : Faults) (pn : String) (st : RunState) :
    Except (String × RunState) RunState :=
  match fl.fFind with
  | some m => .error (m, st)
  | none =>
  match findPartyByPhoneNumber env pn with
  | none =>
    match fl.fNoMatchWrite with
    | some m => .error (m, st)
    | none =>
    let st1 := doUpdate st (noMatchFields st.clock)
    match fl.fNoMatchReply with
    | some m => .error (m, st1)
    | none =>
    .ok (sendReply st1 (Reply.text noMatchReplyMessage))
  | some party =>
    match fl.fMatchWrite with
    | some m => .error (m, st)
    | none =>
    let st1 := doUpdate st (matchFields party st.clock)
    match fl.fCheck with
    | some m => .error (m, st1)
    | none =>
    if checkForStatement env party.code = false then
      match fl.fNoStatementWrite with
      | some m => .error (m, st1)
      | none =>
      let st2 := doUpdate st1 (noStatementFields party.code st1.clock)
      match fl.fNoStatementReply with
      | some m => .error (m, st2)
      | none =>
      .ok (sendReply st2 (Reply.text (noStatementReplyMessage party.code)))
    else
      generateAndSendStatement env fl party st1

/-- Model of `processWhatsAppRequest` (src/index.js lines 138-219): run the try
body; any thrown error is caught, recorded in the ghost field, answered
with a FAILED update and the generic apology reply; an error thrown by
the catch handler itself propagates to the message handler. -/
def processWhatsAppRequest (env : Env) (fl : Faults) (pn : String)
    (st : RunState) : Except (String × RunState) RunState :=
  match tryBody env fl pn st with
  | .ok st1 => .ok st1
  | .error (m, st1) =>
    let st2 := { st1 with caughtFault := some m }
    match fl.fFailedWrite with
    | some m2 => .error (m2, st2)
    | none =>
    let st3 := doUpdate st2 (failedFields m st2.clock)
    match fl.fApologyReply with
    | some m2 => .error (m2, st3)
    | none =>
    .ok (sendReply st3 (Reply.text apologyMessage))

/-- The run state just after `whatsappRequests.insertOne` succeeded
(src/index.js lines 108-118). -/
def initState (pn msg : String) : RunState :=
  { record := mkRequestRecord pn msg 0
    replies := []
    ops := [DbOp.insert (mkRequestRecord pn msg 0)]
    clock := 1
    scratchWritten := false
    scratchPresent := false
    caughtFault := none }

/-- The tail of the `client.on("message")` handler (src/index.js lines
121-132): run `processWhatsAppRequest`; an error escaping it is logged
and answered with a best-effort apology reply whose own failure is
swallowed. -/
def handleAfterInsert (env : Env) (fl : Faults) (pn : String) (st : RunState) :
    RunState :=
  match processWhatsAppRequest env fl pn st with
  | .ok st1 => st1
  | .error (_, st1) =>
    match fl.fOuterReply with
    | some _ => st1
    | none => sendReply st1 (Reply.text apologyMessage)

/-- One full message-handling run: normalize the sender to digits, trim
the body, insert the RECEIVED record, process. -/
def runMessage (env : Env) (fl : Faults) (sender msgBody : String) : RunState :=
  let pn := String.mk (stripNonDigits sender.toList)
  handleAfterInsert env fl pn (initState pn msgBody.trim)

/-- The statuses written by the update operations of a trace, in order. -/
def statusSets (ops : List DbOp) : List String :=
  ops.filterMap (fun op =>
    match op with
    | DbOp.update f => f.status
    | _ => none)

/-- Is an operation a deletion? -/
def isDel : DbOp → Bool
  | DbOp.del => true
  | _ => false

/-- How many generic apology replies a reply list contains. -/
def countApologies (rs : List Reply) : Nat :=
  rs.count (Reply.text apologyMessage)

/-- The operation trace grew only by updates, each setting the
last-update timestamp. -/
def OpsExtend (st0 st1 : RunState) : Prop :=
  ∃ l, st1.ops = st0.ops ++ l ∧
    ∀ op ∈ l, ∃ f, op = DbOp.update f ∧ f.updatedAt.isSome = true

/-- The reply list grew only by replies other than the generic apology. -/
def RepliesExtend (st0 st1 : RunState) : Prop :=
  ∃ l, st1.replies = st0.replies ++ l ∧ Reply.text apologyMessage ∉ l

/-! ## Concrete fixtures used by witnesses and counterexamples -/

/-- A customer record whose name contains the raw digits of the sender. -/
def partyC100 : Party :=
  { code := "C100", customerName := some "Acme Pharma 919876543210",
    city := some "Pune" }

/-- An environment in which the main sender fully succeeds. -/
def envOk : Env :=
  { parties := [partyC100]
    statements := [{ id := 1, statementDate := 5 }]
    sections := [{ statementId := 1, partyCode := "C100" }]
    renderStatus := 200
    renderStatusText := "OK" }

/-- An environment with no data at all. -/
def envEmpty : Env :=
  { parties := [], statements := [], sections := []
    renderStatus := 200, renderStatusText := "OK" }

/-- Fault injection: the reply after the NO_MATCH update throws. -/
def flNoMatchReply : Faults := { fNoMatchReply := some "reply send failed" }

/-- Fault injection: sending the document reply throws. -/
def flReply2 : Faults := { fReply2 := some "document send failed" }

/-- Fault injection: removing the scratch file throws. -/
def flUnlink : Faults := { fUnlink := some "unlink failed" }

/-- Fault injection: the customer lookup throws. -/
def flFind : Faults := { fFind := some "database unreachable" }

/-! # Theorems -/

/-! ## Matcher-layer lemmas -/

theorem isRegexMeta_not_alphanum {c : Char} (h : isRegexMeta c = true) :
    c.isAlphanum = false := by
  simp only [isRegexMeta, Bool.or_eq_true, decide_eq_true_eq] at h
  rcases h with ((((((((((((h | h) | h) | h) | h) | h) | h) | h) | h) | h) | h) | h) |
    h) | h <;> subst h <;> decide

theorem parseEscaped_escapeRegex (cs : List Char) :
    parseEscaped (escapeRegex cs) = some cs := by
  induction cs with
  | nil => rfl
  | cons c rest ih =>
    by_cases h : isRegexMeta c = true
    · have hna := isRegexMeta_not_alphanum h
      rw [escapeRegex, if_pos h]
      rw [List.cons_append, List.cons_append, List.nil_append]
      rw [parseEscaped.eq_def]
      dsimp only
      rw [if_pos rfl]
      rw [if_neg (by simp [hna]), ih]
      rfl
    · have hc : c ≠ '\\' := by
        intro he; subst he; exact absurd (by decide) (h ·)
      rw [escapeRegex, if_neg h, List.cons_append, List.nil_append]
      rw [parseEscaped.eq_def]
      dsimp only
      rw [if_neg hc, if_neg h, ih]
      rfl

theorem litsMatchHere_iff (p s : List Char) :
    litsMatchHere p s = true ↔ ∃ t, s = p ++ t := by
  induction p generalizing s with
  | nil => simp [litsMatchHere]
  | cons a ps ih =>
    cases s with
    | nil =>
      simp [litsMatchHere]
    | cons c cs =>
      simp only [litsMatchHere, Bool.and_eq_true, decide_eq_true_eq, ih]
      constructor
      · rintro ⟨rfl, t, rfl⟩; exact ⟨t, rfl⟩
      · rintro ⟨t, h⟩
        injection h with h1 h2
        exact ⟨h1.symm, t, h2⟩

theorem litsSearch_iff (p s : List Char) :
    litsSearch p s = true ↔ ∃ a b, s = a ++ p ++ b := by
  induction s with
  | nil =>
    simp only [litsSearch, litsMatchHere_iff]
    constructor
    · rintro ⟨t, h⟩
      exact ⟨[], t, by simpa using h⟩
    · rintro ⟨a, b, h⟩
      rcases List.append_eq_nil.mp h.symm with ⟨h1, rfl⟩
      rcases List.append_eq_nil.mp h1 with ⟨rfl, rfl⟩
      exact ⟨[], rfl⟩
  | cons c cs ih =>
    simp only [litsSearch, Bool.or_eq_true, litsMatchHere_iff, ih]
    constructor
    · rintro (⟨t, h⟩ | ⟨a, b, h⟩)
      · exact ⟨[], t, by simpa using h⟩
      · exact ⟨c :: a, b, by simp [h]⟩
    · rintro ⟨a, b, h⟩
      cases a with
      | nil => exact Or.inl ⟨b, by simpa using h⟩
      | cons a0 as =>
        injection h with h1 h2
        exact Or.inr ⟨as, b, h2⟩

/-- The escaped candidate, run as a regex, tests exactly literal
substring containment. -/
theorem jsRegexTest_escape (c s : List Char) :
    jsRegexTest (escapeRegex c) s = true ↔ ∃ a b, s = a ++ c ++ b := by
  rw [jsRegexTest, parseEscaped_escapeRegex]
  exact litsSearch_iff c s

/-- Strings shorter than ten characters contain no ten-digit run, so the
split `replace` leaves them unchanged. -/
theorem replaceTen_short {sep : Char} {l : List Char} (h : l.length < 10) :
    replaceTen sep l = l := by
  induction l with
  | nil => rfl
  | cons c rest ih =>
    have hd : decide (10 ≤ (c :: rest).length) = false :=
      decide_eq_false (by omega)
    have hlen : tenDigitsHere (c :: rest) = false := by
      rw [tenDigitsHere, hd, Bool.false_and]
    have hrest : rest.length < 10 := by
      simp only [List.length_cons] at h; omega
    rw [replaceTen.eq_def]
    dsimp only
    rw [if_neg (by simp [hlen]), ih hrest]

/-- On an all-digit string of length exactly ten, the split `replace`
joins the two halves of five with the separator. -/
theorem replaceTen_ten {sep : Char} {l : List Char}
    (hlen : l.length = 10) (hdig : ∀ c ∈ l, c.isDigit = true) :
    replaceTen sep l = l.take 5 ++ sep :: l.drop 5 := by
  cases l with
  | nil => simp at hlen
  | cons c rest =>
    have hten : tenDigitsHere (c :: rest) = true := by
      simp only [tenDigitsHere, Bool.and_eq_true, decide_eq_true_eq, List.all_eq_true]
      exact ⟨hlen.ge, fun x hx => hdig x (List.mem_of_mem_take hx)⟩
    have hdrop10 : (c :: rest).drop 10 = [] := by
      apply List.drop_eq_nil_of_le; omega
    have hdrop5 : ((c :: rest).drop 5).take 5 = (c :: rest).drop 5 := by
      apply List.take_of_length_le
      rw [List.length_drop, hlen]
    rw [replaceTen.eq_def]
    dsimp only
    rw [if_pos hten, hdrop5, hdrop10, List.append_nil]

/-- Lists of different lengths are different. -/
theorem ne_of_length_ne {a b : List Char} (h : a.length ≠ b.length) : a ≠ b :=
  fun hab => h (hab ▸ rfl)

/-- No list equals its parenthesized form (two characters longer). -/
theorem ne_parenWrap (l : List Char) : l ≠ parenWrap l := by
  apply ne_of_length_ne
  simp only [parenWrap, List.length_cons, List.length_append, List.length_singleton]
  omega

/-- The 5+5 split of a ten-character string is eleven characters long. -/
theorem fiveFive_length {pn : List Char} (hlen : pn.length = 10) (sep : Char) :
    (fiveFive sep pn).length = 11 := by
  simp [fiveFive, hlen]

/-! ## Claim C1 -/

/-- Claim C1, counterexample: the claim says the two split operations are
no-ops for every digit string whose length is not exactly 10.  The
twelve-digit string "919876543210" (the normal form of an Indian
WhatsApp sender id) is all digits and not of length 10, yet both splits
change it (the leftmost ten digits are split 5+5, leaving the last two
digits attached), and the five generated candidates are in fact five
distinct strings rather than 2-3. -/
theorem claim_C1_counterexample :
    (∀ c ∈ ("919876543210".toList), c.isDigit = true) ∧
    ("919876543210".toList).length ≠ 10 ∧
    replaceTen ' ' ("919876543210".toList) ≠ ("919876543210".toList) ∧
    replaceTen '-' ("919876543210".toList) ≠ ("919876543210".toList) ∧
    (searchPatterns ("919876543210".toList)).Nodup := by
  decide

/-- Claim C1, amended: for every digit string whose length is less than
10, the two split operations (5+5 space join and 5+5 hyphen join) are
no-ops, so the candidate set produced by `findPartyByPhoneNumber`
collapses to duplicates of exactly 2 distinct strings: the raw digits
(three times) and the parenthesized raw digits (twice). -/
theorem claim_C1 (pn : List Char) (hdig : ∀ c ∈ pn, c.isDigit = true)
    (hlen : pn.length < 10) :
    replaceTen ' ' pn = pn ∧ replaceTen '-' pn = pn ∧
    searchPatterns pn = [pn, pn, pn, parenWrap pn, parenWrap pn] ∧
    pn ≠ parenWrap pn := by
  have hs : replaceTen ' ' pn = pn := replaceTen_short hlen
  have hh : replaceTen '-' pn = pn := replaceTen_short hlen
  refine ⟨hs, hh, ?_, ne_parenWrap pn⟩
  rw [searchPatterns, hs, hh]

/-- Witness for the amended theorem of claim C1 at the five-digit string "98765". -/
theorem claim_C1_witness :
    replaceTen ' ' ("98765".toList) = "98765".toList ∧
    replaceTen '-' ("98765".toList) = "98765".toList ∧
    searchPatterns ("98765".toList) =
      ["98765".toList, "98765".toList, "98765".toList,
       parenWrap ("98765".toList), parenWrap ("98765".toList)] ∧
    ("98765".toList) ≠ parenWrap ("98765".toList) :=
  claim_C1 ("98765".toList) (by decide) (by decide)

/-! ## Claim C5 -/

/-- Claim C5: every generated candidate is escaped so that all regex
metacharacters are neutralized, and the built pattern is unanchored:
for every candidate `c` and stored field value `s`, the pattern matches
`s` exactly when `c` occurs as a literal contiguous substring anywhere
inside `s`. -/
theorem claim_C5 (pn c s : List Char) (hc : c ∈ searchPatterns pn) :
    jsRegexTest (escapeRegex c) s = true ↔ ∃ a b, s = a ++ c ++ b :=
  jsRegexTest_escape c s

/-- Witness for claim C5: the space-split candidate of sender digits
"9876543210" matches the stored locality "near 98765 43210 market". -/
theorem claim_C5_witness :
    ("98765 43210".toList ∈ searchPatterns ("9876543210".toList)) ∧
    (∃ a b, ("near 98765 43210 market".toList) =
      a ++ ("98765 43210".toList) ++ b) :=
  ⟨by decide,
   (claim_C5 ("9876543210".toList) ("98765 43210".toList)
      ("near 98765 43210 market".toList) (by decide)).mp (by decide)⟩

/-! ## Claim C6 -/

/-- Claim C6: for every digit string of length exactly 10, the candidate
list is exactly the five variants (raw, 5+5 space join, 5+5 hyphen
join, parenthesized raw, parenthesized space join), and the five are
pairwise distinct — in fact unconditionally, which subsumes the claim's
caveat about symmetrically repeating digits. -/
theorem claim_C6 (pn : List Char) (hlen : pn.length = 10)
    (hdig : ∀ c ∈ pn, c.isDigit = true) :
    searchPatterns pn =
      [pn, fiveFive ' ' pn, fiveFive '-' pn, parenWrap pn,
       parenWrap (fiveFive ' ' pn)] ∧
    (searchPatterns pn).Pairwise (· ≠ ·) := by
  have hsp : replaceTen ' ' pn = fiveFive ' ' pn := replaceTen_ten hlen hdig
  have hhy : replaceTen '-' pn = fiveFive '-' pn := replaceTen_ten hlen hdig
  have hP : searchPatterns pn =
      [pn, fiveFive ' ' pn, fiveFive '-' pn, parenWrap pn,
       parenWrap (fiveFive ' ' pn)] := by
    rw [searchPatterns, hsp, hhy]
  have lsp : (fiveFive ' ' pn).length = 11 := fiveFive_length hlen ' '
  have lhy : (fiveFive '-' pn).length = 11 := fiveFive_length hlen '-'
  have lpw : (parenWrap pn).length = 12 := by simp [parenWrap, hlen]
  have lpws : (parenWrap (fiveFive ' ' pn)).length = 13 := by
    simp [parenWrap, lsp]
  have hneSH : fiveFive ' ' pn ≠ fiveFive '-' pn := by
    intro h
    rw [fiveFive, fiveFive] at h
    have h2 := List.append_cancel_left h
    injection h2 with h3 _
    exact absurd h3 (by decide)
  refine ⟨hP, ?_⟩
  rw [hP]
  refine List.Pairwise.cons ?_ (List.Pairwise.cons ?_ (List.Pairwise.cons ?_
    (List.Pairwise.cons ?_ (List.pairwise_singleton _ _))))
  · intro b hb
    simp only [List.mem_cons, List.not_mem_nil, or_false] at hb
    rcases hb with rfl | rfl | rfl | rfl <;>
      exact ne_of_length_ne (by omega)
  · intro b hb
    simp only [List.mem_cons, List.not_mem_nil, or_false] at hb
    rcases hb with rfl | rfl | rfl
    · exact hneSH
    · exact ne_of_length_ne (by omega)
    · exact ne_of_length_ne (by omega)
  · intro b hb
    simp only [List.mem_cons, List.not_mem_nil, or_false] at hb
    rcases hb with rfl | rfl <;> exact ne_of_length_ne (by omega)
  · intro b hb
    simp only [List.mem_cons, List.not_mem_nil, or_false] at hb
    rcases hb with rfl
    exact ne_of_length_ne (by omega)

/-! ## Audit-record plumbing lemmas -/

@[simp] theorem setOpt_none {α : Type} (o : Option α) : setOpt none o = o := rfl

@[simp] theorem setOpt_some {α : Type} (v : α) (o : Option α) :
    setOpt (some v) o = some v := rfl

@[simp] theorem applyUpdate_status (r : ReqRecord) (f : UpdateFields) :
    (applyUpdate r f).status = f.status.getD r.status := rfl

@[simp] theorem applyUpdate_responseMessage (r : ReqRecord) (f : UpdateFields) :
    (applyUpdate r f).responseMessage =
      setOpt f.responseMessage r.responseMessage := rfl

@[simp] theorem applyUpdate_statementSent (r : ReqRecord) (f : UpdateFields) :
    (applyUpdate r f).statementSent =
      setOpt f.statementSent r.statementSent := rfl

@[simp] theorem applyUpdate_updatedAt (r : ReqRecord) (f : UpdateFields) :
    (applyUpdate r f).updatedAt = f.updatedAt.getD r.updatedAt := rfl

/-- The inner try block: on success, exactly one PROCESSED update is
appended, the two replies are sent in order, and the scratch file has
been written and removed. -/
theorem innerBody_ok (env : Env) (fl : Faults) (party : Party)
    (st st1 : RunState) (h : innerBody env fl party st = .ok st1) :
    st1.record = applyUpdate st.record (processedFields st.clock) ∧
    st1.ops = st.ops ++ [DbOp.update (processedFields st.clock)] ∧
    st1.replies = st.replies ++
      [Reply.text (introMessage party), Reply.doc (captionMessage party.code)] ∧
    st1.scratchWritten = true ∧ st1.scratchPresent = false ∧
    st1.caughtFault = st.caughtFault ∧ st1.clock = st.clock + 1 := by
  unfold innerBody at h
  repeat' split at h
  any_goals exact Except.noConfusion h
  injection h with h
  subst h
  refine ⟨?_, ?_, ?_, ?_, ?_, ?_, ?_⟩ <;> simp [doUpdate, sendReply]

/-- The inner try block: on a thrown error, the record and the operation
trace are unchanged, and the replies sent so far form an initial segment of the
intro-then-document pair. -/
theorem innerBody_err (env : Env) (fl : Faults) (party : Party)
    (st st1 : RunState) (m : String)
    (h : innerBody env fl party st = .error (m, st1)) :
    st1.record = st.record ∧ st1.ops = st.ops ∧
    st1.caughtFault = st.caughtFault ∧ st1.clock = st.clock ∧
    (st1.replies = st.replies ∨
      st1.replies = st.replies ++ [Reply.text (introMessage party)] ∨
      st1.replies = st.replies ++
        [Reply.text (introMessage party),
         Reply.doc (captionMessage party.code)]) := by
  unfold innerBody at h
  repeat' split at h
  any_goals exact Except.noConfusion h
  all_goals
    injection h with h
  all_goals
    injection h with h1 h2
  all_goals
    subst h1
  all_goals
    subst h2
  all_goals
    refine ⟨rfl, rfl, rfl, rfl, ?_⟩
  all_goals
    first
      | exact Or.inl rfl
      | exact Or.inr (Or.inl rfl)
      | (refine Or.inr (Or.inr ?_); simp [sendReply])

/-! ## Reply-message disequalities

The generic apology text differs from every other reply the program can
send, including the two reply families built around an arbitrary party
code or name (settled by their first character). -/

theorem noMatchReply_ne_apology :
    Reply.text noMatchReplyMessage ≠ Reply.text apologyMessage := by
  decide

theorem noStatementReply_ne_apology (code : String) :
    Reply.text (noStatementReplyMessage code) ≠ Reply.text apologyMessage := by
  rw [noStatementReplyMessage]
  obtain ⟨d⟩ := code
  intro h
  injection h with h
  have h2 : (("No statement found for \"" ++ String.mk d ++
      "\". Please contact Sanjivan Medico Traders for more information.").data.head?)
      = apologyMessage.data.head? := congrArg (fun s => s.data.head?) h
  have h3 : (("No statement found for \"" ++ String.mk d ++
      "\". Please contact Sanjivan Medico Traders for more information.").data.head?)
      = some 'N' := rfl
  rw [h3] at h2
  exact absurd h2 (by decide)

theorem intro_ne_apology (party : Party) :
    Reply.text (introMessage party) ≠ Reply.text apologyMessage := by
  rw [introMessage]
  generalize jsOrElse party.customerName party.code = x
  obtain ⟨d⟩ := x
  intro h
  injection h with h
  have h2 : (("Here is your latest statement for " ++ String.mk d ++
      ":").data.head?) = apologyMessage.data.head? :=
    congrArg (fun s => s.data.head?) h
  have h3 : (("Here is your latest statement for " ++ String.mk d ++
      ":").data.head?) = some 'H' := rfl
  rw [h3] at h2
  exact absurd h2 (by decide)

theorem doc_ne_apology (caption : String) :
    Reply.doc caption ≠ Reply.text apologyMessage := by
  intro h
  exact Reply.noConfusion h

/-! ## Extension-relation utilities -/

theorem opsExtend_refl (st : RunState) : OpsExtend st st :=
  ⟨[], by simp, by simp⟩

theorem opsExtend_trans {a b c : RunState} (h1 : OpsExtend a b)
    (h2 : OpsExtend b c) : OpsExtend a c := by
  obtain ⟨l1, e1, p1⟩ := h1
  obtain ⟨l2, e2, p2⟩ := h2
  refine ⟨l1 ++ l2, by rw [e2, e1, List.append_assoc], ?_⟩
  intro op hop
  rcases List.mem_append.mp hop with h | h
  · exact p1 op h
  · exact p2 op h

theorem repliesExtend_refl (st : RunState) : RepliesExtend st st :=
  ⟨[], by simp, by simp⟩

theorem repliesExtend_trans {a b c : RunState} (h1 : RepliesExtend a b)
    (h2 : RepliesExtend b c) : RepliesExtend a c := by
  obtain ⟨l1, e1, p1⟩ := h1
  obtain ⟨l2, e2, p2⟩ := h2
  refine ⟨l1 ++ l2, by rw [e2, e1, List.append_assoc], ?_⟩
  intro hmem
  rcases List.mem_append.mp hmem with h | h
  · exact p1 h
  · exact p2 h

/-- A reply extension without apologies keeps the apology count. -/
theorem countApologies_of_repliesExtend {a b : RunState}
    (h : RepliesExtend a b) :
    countApologies b.replies = countApologies a.replies := by
  obtain ⟨l, e, p⟩ := h
  rw [countApologies, countApologies, e, List.count_append,
    List.count_eq_zero.mpr p, Nat.add_zero]

theorem statusSets_append (a b : List DbOp) :
    statusSets (a ++ b) = statusSets a ++ statusSets b := by
  rw [statusSets, statusSets, statusSets, List.filterMap_append]

/-- Update-only extensions contain no deletion. -/
theorem not_del_of_opsExtend {a b : RunState} (h : OpsExtend a b)
    (hinit : ∀ op ∈ a.ops, isDel op = false) :
    ∀ op ∈ b.ops, isDel op = false := by
  obtain ⟨l, e, p⟩ := h
  intro op hop
  rw [e] at hop
  rcases List.mem_append.mp hop with hmem | hmem
  · exact hinit op hmem
  · obtain ⟨f, rfl, -⟩ := p op hmem
    rfl

/-! ## State-step projection lemmas -/

@[simp] theorem sendReply_record (st : RunState) (r : Reply) :
    (sendReply st r).record = st.record := rfl
@[simp] theorem sendReply_ops (st : RunState) (r : Reply) :
    (sendReply st r).ops = st.ops := rfl
@[simp] theorem sendReply_replies (st : RunState) (r : Reply) :
    (sendReply st r).replies = st.replies ++ [r] := rfl
@[simp] theorem sendReply_clock (st : RunState) (r : Reply) :
    (sendReply st r).clock = st.clock := rfl
@[simp] theorem sendReply_caughtFault (st : RunState) (r : Reply) :
    (sendReply st r).caughtFault = st.caughtFault := rfl
@[simp] theorem sendReply_scratchWritten (st : RunState) (r : Reply) :
    (sendReply st r).scratchWritten = st.scratchWritten := rfl
@[simp] theorem sendReply_scratchPresent (st : RunState) (r : Reply) :
    (sendReply st r).scratchPresent = st.scratchPresent := rfl

@[simp] theorem doUpdate_record (st : RunState) (f : UpdateFields) :
    (doUpdate st f).record = applyUpdate st.record f := rfl
@[simp] theorem doUpdate_ops (st : RunState) (f : UpdateFields) :
    (doUpdate st f).ops = st.ops ++ [DbOp.update f] := rfl
@[simp] theorem doUpdate_replies (st : RunState) (f : UpdateFields) :
    (doUpdate st f).replies = st.replies := rfl
@[simp] theorem doUpdate_clock (st : RunState) (f : UpdateFields) :
    (doUpdate st f).clock = st.clock + 1 := rfl
@[simp] theorem doUpdate_caughtFault (st : RunState) (f : UpdateFields) :
    (doUpdate st f).caughtFault = st.caughtFault := rfl
@[simp] theorem doUpdate_scratchWritten (st : RunState) (f : UpdateFields) :
    (doUpdate st f).scratchWritten = st.scratchWritten := rfl
@[simp] theorem doUpdate_scratchPresent (st : RunState) (f : UpdateFields) :
    (doUpdate st f).scratchPresent = st.scratchPresent := rfl

theorem opsExtend_doUpdate (st : RunState) (f : UpdateFields)
    (hf : f.updatedAt.isSome = true) : OpsExtend st (doUpdate st f) :=
  ⟨[DbOp.update f], by simp, by
    intro op hop
    rw [List.mem_singleton] at hop
    subst hop
    exact ⟨f, rfl, hf⟩⟩

theorem repliesExtend_doUpdate (st : RunState) (f : UpdateFields) :
    RepliesExtend st (doUpdate st f) := ⟨[], by simp, by simp⟩

theorem repliesExtend_sendReply (st : RunState) (r : Reply)
    (hr : r ≠ Reply.text apologyMessage) : RepliesExtend st (sendReply st r) :=
  ⟨[r], by simp, by
    intro hmem
    rw [List.mem_singleton] at hmem
    exact hr hmem.symm⟩

/-! ## generateAndSendStatement lemmas -/

/-- When `generateAndSendStatement` succeeds, the inner try block did. -/
theorem generateAndSendStatement_ok_inner (env : Env) (fl : Faults)
    (party : Party) (st st1 : RunState)
    (h : generateAndSendStatement env fl party st = .ok st1) :
    innerBody env fl party st = .ok st1 := by
  unfold generateAndSendStatement at h
  repeat' split at h
  any_goals exact Except.noConfusion h
  injection h with h
  subst h
  assumption

/-- When `generateAndSendStatement` throws, the record and trace are
unchanged and the replies sent form an initial segment of the intro-document pair. -/
theorem generateAndSendStatement_err (env : Env) (fl : Faults)
    (party : Party) (st st1 : RunState) (m : String)
    (h : generateAndSendStatement env fl party st = .error (m, st1)) :
    st1.record = st.record ∧ st1.ops = st.ops ∧
    st1.caughtFault = st.caughtFault ∧ st1.clock = st.clock ∧
    (st1.replies = st.replies ∨
      st1.replies = st.replies ++ [Reply.text (introMessage party)] ∨
      st1.replies = st.replies ++
        [Reply.text (introMessage party),
         Reply.doc (captionMessage party.code)]) := by
  unfold generateAndSendStatement at h
  repeat' split at h
  any_goals exact Except.noConfusion h
  all_goals
    injection h with h
  all_goals
    injection h with h1 h2
  all_goals
    subst h1
  all_goals
    subst h2
  all_goals
    first
      | exact ⟨rfl, rfl, rfl, rfl, Or.inl rfl⟩
      | exact innerBody_err env fl party st _ _ (by assumption)

/-! ## tryBody lemmas -/

/-- The try body, on normal return: the trace grew only by
timestamped updates, no apology reply was sent, and the run ended in
exactly one of the three business outcomes, each writing its single
terminal status. -/
theorem tryBody_ok (env : Env) (fl : Faults) (pn : String)
    (st st1 : RunState) (h : tryBody env fl pn st = .ok st1) :
    OpsExtend st st1 ∧ RepliesExtend st st1 ∧
    st1.caughtFault = st.caughtFault ∧
    ((st1.record.status = "NO_MATCH" ∧
      st1.record.statementSent = st.record.statementSent ∧
      st1.scratchWritten = st.scratchWritten ∧
      st1.scratchPresent = st.scratchPresent ∧
      statusSets st1.ops = statusSets st.ops ++ ["NO_MATCH"]) ∨
     (st1.record.status = "NO_STATEMENT" ∧
      st1.record.statementSent = st.record.statementSent ∧
      st1.scratchWritten = st.scratchWritten ∧
      st1.scratchPresent = st.scratchPresent ∧
      statusSets st1.ops = statusSets st.ops ++ ["NO_STATEMENT"]) ∨
     (st1.record.status = "PROCESSED" ∧
      st1.record.statementSent = some true ∧
      st1.scratchWritten = true ∧ st1.scratchPresent = false ∧
      statusSets st1.ops = statusSets st.ops ++ ["PROCESSED"])) := by
  unfold tryBody at h
  repeat' split at h
  any_goals exact Except.noConfusion h
  · -- NO_MATCH branch
    injection h with h
    subst h
    refine ⟨?_, ?_, by simp, Or.inl ⟨?_, ?_, by simp, by simp, ?_⟩⟩
    · exact ⟨[DbOp.update (noMatchFields st.clock)], by simp, by
        intro op hop
        rw [List.mem_singleton] at hop
        subst hop
        exact ⟨_, rfl, rfl⟩⟩
    · exact ⟨[Reply.text noMatchReplyMessage], by simp, by
        intro hmem
        rw [List.mem_singleton] at hmem
        exact noMatchReply_ne_apology hmem.symm⟩
    · simp [noMatchFields]
    · simp [noMatchFields]
    · simp [statusSets_append, statusSets, noMatchFields]
  · -- NO_STATEMENT branch
    rename Party => party
    injection h with h
    subst h
    refine ⟨?_, ?_, by simp, Or.inr (Or.inl ⟨?_, ?_, by simp, by simp, ?_⟩)⟩
    · exact opsExtend_trans (opsExtend_doUpdate st (matchFields party st.clock) rfl)
        (opsExtend_doUpdate _ _ rfl)
    · exact repliesExtend_trans (repliesExtend_doUpdate st _)
        (repliesExtend_trans (repliesExtend_doUpdate _ _)
          (repliesExtend_sendReply _ _ (noStatementReply_ne_apology party.code)))
    · simp [noStatementFields]
    · simp [noStatementFields, matchFields]
    · simp [statusSets_append, statusSets, noStatementFields, matchFields]
  · -- generateAndSendStatement branch
    rename Party => party
    obtain ⟨hrec, hops, hreps, hw, hp, hcf, hck⟩ :=
      innerBody_ok _ _ _ _ _ (generateAndSendStatement_ok_inner _ _ _ _ _ h)
    refine ⟨?_, ?_, by rw [hcf]; simp, Or.inr (Or.inr ⟨?_, ?_, hw, hp, ?_⟩)⟩
    · refine ⟨[DbOp.update (matchFields party st.clock),
        DbOp.update (processedFields (st.clock + 1))], ?_, ?_⟩
      · rw [hops]; simp
      · intro op hop
        simp only [List.mem_cons, List.not_mem_nil, or_false] at hop
        rcases hop with rfl | rfl
        · exact ⟨_, rfl, rfl⟩
        · exact ⟨_, rfl, rfl⟩
    · refine ⟨[Reply.text (introMessage party),
        Reply.doc (captionMessage party.code)], ?_, ?_⟩
      · rw [hreps]; simp
      · intro hmem
        simp only [List.mem_cons, List.not_mem_nil, or_false] at hmem
        rcases hmem with h' | h'
        · exact intro_ne_apology party h'.symm
        · exact doc_ne_apology _ h'.symm
    · rw [hrec]; simp [processedFields]
    · rw [hrec]; simp [processedFields]
    · rw [hops]; simp [statusSets_append, statusSets, processedFields, matchFields]

/-- The try body, on a thrown error: the trace grew only by timestamped
updates and by at most one status write, no apology reply was sent, the
ghost field is untouched, and `statementSent` is unchanged. -/
theorem tryBody_err (env : Env) (fl : Faults) (pn : String)
    (st st1 : RunState) (m : String)
    (h : tryBody env fl pn st = .error (m, st1)) :
    OpsExtend st st1 ∧ RepliesExtend st st1 ∧
    st1.caughtFault = st.caughtFault ∧
    st1.record.statementSent = st.record.statementSent ∧
    (statusSets st1.ops).length ≤ (statusSets st.ops).length + 1 := by
  unfold tryBody at h
  repeat' split at h
  any_goals exact Except.noConfusion h
  all_goals
    try (injection h with h; injection h with h1 h2; subst h1; subst h2)
  -- leaves in source order: find fault; NO_MATCH write fault; fault after
  -- the NO_MATCH write; match-update fault; fault after the match update
  -- (statement check, NO_STATEMENT write); fault after the NO_STATEMENT
  -- write; error inside generateAndSendStatement
  · exact ⟨opsExtend_refl st, repliesExtend_refl st, rfl, rfl, Nat.le_succ _⟩
  · exact ⟨opsExtend_refl st, repliesExtend_refl st, rfl, rfl, Nat.le_succ _⟩
  · refine ⟨opsExtend_doUpdate st _ rfl, repliesExtend_doUpdate st _, rfl, rfl, ?_⟩
    simp [statusSets_append, statusSets, noMatchFields]
  · exact ⟨opsExtend_refl st, repliesExtend_refl st, rfl, rfl, Nat.le_succ _⟩
  · refine ⟨opsExtend_doUpdate st _ rfl, repliesExtend_doUpdate st _, rfl, rfl, ?_⟩
    simp [statusSets_append, statusSets, matchFields]
  · refine ⟨opsExtend_doUpdate st _ rfl, repliesExtend_doUpdate st _, rfl, rfl, ?_⟩
    simp [statusSets_append, statusSets, matchFields]
  · rename Party => party
    refine ⟨opsExtend_trans (opsExtend_doUpdate st (matchFields party st.clock) rfl)
        (opsExtend_doUpdate _ (noStatementFields party.code (st.clock + 1)) rfl),
      repliesExtend_trans (repliesExtend_doUpdate st _) (repliesExtend_doUpdate _ _),
      rfl, rfl, ?_⟩
    simp [statusSets_append, statusSets, noStatementFields, matchFields]
  · rename Party => party
    obtain ⟨hrec, hops, hcf, hck, hreps⟩ :=
      generateAndSendStatement_err _ _ _ _ _ _ h
    refine ⟨⟨[DbOp.update (matchFields party st.clock)], by rw [hops]; simp, ?_⟩,
      ?_, by rw [hcf]; simp, by rw [hrec]; simp [matchFields], ?_⟩
    · intro op hop
      rw [List.mem_singleton] at hop
      subst hop
      exact ⟨_, rfl, rfl⟩
    · rcases hreps with h' | h' | h'
      · exact ⟨[], by rw [h']; simp, by simp⟩
      · refine ⟨[Reply.text (introMessage party)], by rw [h']; simp, ?_⟩
        intro hmem
        rw [List.mem_singleton] at hmem
        exact intro_ne_apology party hmem.symm
      · refine ⟨[Reply.text (introMessage party),
          Reply.doc (captionMessage party.code)], by rw [h']; simp, ?_⟩
        intro hmem
        simp only [List.mem_cons, List.not_mem_nil, or_false] at hmem
        rcases hmem with h'' | h''
        · exact intro_ne_apology party h''.symm
        · exact doc_ne_apology _ h''.symm
    · rw [hops]
      simp [statusSets_append, statusSets, matchFields]

/-! ## processWhatsAppRequest lemmas -/

theorem countApologies_sendApology (st : RunState) :
    countApologies (sendReply st (Reply.text apologyMessage)).replies
      = countApologies st.replies + 1 := by
  simp [countApologies, sendReply]

/-- Behaviour of `processWhatsAppRequest` on normal return: either the try body
finished in a business outcome and the catch never ran, or a fault was
caught and answered with a FAILED update carrying the fault's
description plus exactly one new apology reply. -/
theorem processWhatsAppRequest_ok (env : Env) (fl : Faults) (pn : String)
    (st st1 : RunState) (h : processWhatsAppRequest env fl pn st = .ok st1) :
    OpsExtend st st1 ∧
    ((st1.caughtFault = st.caughtFault ∧ RepliesExtend st st1 ∧
      (statusSets st1.ops).length ≤ (statusSets st.ops).length + 1 ∧
      ((st1.record.status = "NO_MATCH" ∧
        st1.record.statementSent = st.record.statementSent ∧
        st1.scratchWritten = st.scratchWritten ∧
        st1.scratchPresent = st.scratchPresent) ∨
       (st1.record.status = "NO_STATEMENT" ∧
        st1.record.statementSent = st.record.statementSent ∧
        st1.scratchWritten = st.scratchWritten ∧
        st1.scratchPresent = st.scratchPresent) ∨
       (st1.record.status = "PROCESSED" ∧
        st1.record.statementSent = some true ∧
        st1.scratchWritten = true ∧ st1.scratchPresent = false))) ∨
     (∃ m, st1.caughtFault = some m ∧
      st1.record.status = "FAILED" ∧
      st1.record.responseMessage = some ("Error: " ++ m) ∧
      st1.record.statementSent = st.record.statementSent ∧
      countApologies st1.replies = countApologies st.replies + 1 ∧
      (statusSets st1.ops).length ≤ (statusSets st.ops).length + 2)) := by
  unfold processWhatsAppRequest at h
  split at h
  · -- try body returned normally
    injection h with h
    subst h
    obtain ⟨hops, hreps, hcf, hcases⟩ := tryBody_ok _ _ _ _ _ (by assumption)
    refine ⟨hops, Or.inl ⟨hcf, hreps, ?_, ?_⟩⟩
    · rcases hcases with ⟨-, -, -, -, hss⟩ | ⟨-, -, -, -, hss⟩ | ⟨-, -, -, -, hss⟩ <;>
        simp [hss]
    · rcases hcases with ⟨h1, h2, h3, h4, -⟩ | ⟨h1, h2, h3, h4, -⟩ | ⟨h1, h2, h3, h4, -⟩
      · exact Or.inl ⟨h1, h2, h3, h4⟩
      · exact Or.inr (Or.inl ⟨h1, h2, h3, h4⟩)
      · exact Or.inr (Or.inr ⟨h1, h2, h3, h4⟩)
  · -- a fault was caught
    split at h
    · exact Except.noConfusion h
    · split at h
      · exact Except.noConfusion h
      · injection h with h
        subst h
        rename_i x2 m0 stX heqTB x1 heqFW x0 heqAR
        obtain ⟨hops, hreps, hcf, hsent, hlen⟩ :=
          tryBody_err _ _ _ _ _ _ heqTB
        refine ⟨opsExtend_trans hops ⟨[DbOp.update (failedFields m0 stX.clock)],
            by simp, ?_⟩, Or.inr ⟨m0, by simp, by simp [failedFields],
            by simp [failedFields], by simp [failedFields, hsent], ?_, ?_⟩⟩
        · intro op hop
          rw [List.mem_singleton] at hop
          subst hop
          exact ⟨_, rfl, rfl⟩
        · rw [countApologies_sendApology]
          congr 1
          exact countApologies_of_repliesExtend
            ⟨_, hreps.choose_spec.1, hreps.choose_spec.2⟩
        · simp only [sendReply_ops, doUpdate_ops, statusSets_append,
            List.length_append]
          have h1 : (statusSets [DbOp.update (failedFields m0 stX.clock)]).length
              = 1 := by simp [statusSets, failedFields]
          rw [h1]
          omega

/-- Behaviour of `processWhatsAppRequest` when the catch handler itself throws: the
trace still grew only by timestamped updates, the apology was not sent,
`statementSent` is unchanged, and when the FAILED write is not the
faulting step the record has already been completed as FAILED. -/
theorem processWhatsAppRequest_err (env : Env) (fl : Faults) (pn : String)
    (st st1 : RunState) (m2 : String)
    (h : processWhatsAppRequest env fl pn st = .error (m2, st1)) :
    OpsExtend st st1 ∧
    st1.record.statementSent = st.record.statementSent ∧
    (statusSets st1.ops).length ≤ (statusSets st.ops).length + 2 ∧
    ((statusSets st1.ops).length ≤ (statusSets st.ops).length + 1 ∨
      st1.record.status = "FAILED") ∧
    (fl.fFailedWrite = none → st1.record.status = "FAILED") := by
  unfold processWhatsAppRequest at h
  split at h
  · exact Except.noConfusion h
  · split at h
    · -- the FAILED write itself faulted
      injection h with h
      injection h with h1 h2
      subst h1
      subst h2
      rename_i x1 mTB stX heqTB x0 mFW heqFW
      obtain ⟨hops, hreps, hcf, hsent, hlen⟩ :=
        tryBody_err _ _ _ _ _ _ heqTB
      refine ⟨⟨hops.choose, by simpa using hops.choose_spec.1,
        hops.choose_spec.2⟩, by simpa using hsent,
        by simpa using Nat.le_succ_of_le hlen,
        Or.inl (by simpa using hlen), fun hnone => ?_⟩
      rw [heqFW] at hnone
      exact Option.noConfusion hnone
    · split at h
      · -- the apology reply faulted, after the FAILED write
        injection h with h
        injection h with h1 h2
        subst h1
        subst h2
        rename_i x2 m0 stX heqTB x1 heqFW x0 mAR heqAR
        obtain ⟨hops, hreps, hcf, hsent, hlen⟩ :=
          tryBody_err _ _ _ _ _ _ heqTB
        refine ⟨opsExtend_trans hops ⟨[DbOp.update (failedFields m0 stX.clock)],
            by simp, ?_⟩, by simp [failedFields, hsent], ?_, Or.inr ?_, fun _ => ?_⟩
        · intro op hop
          rw [List.mem_singleton] at hop
          subst hop
          exact ⟨_, rfl, rfl⟩
        · simp only [doUpdate_ops, statusSets_append, List.length_append]
          have h1 : (statusSets [DbOp.update (failedFields m0 stX.clock)]).length
              = 1 := by simp [statusSets, failedFields]
          rw [h1]
          omega
        · simp [failedFields]
        · simp [failedFields]
      · exact Except.noConfusion h

/-! ## Claim C4 -/

/-- An empty statement store has no latest statement. -/
theorem latestStatement_nil {env : Env} (h : env.statements = []) :
    latestStatement env = none := by
  simp [latestStatement, h]

/-- Claim C4: `checkForStatement` returns false when the statement store
is empty, false when the latest statement (greatest `statementDate`)
has no `ReportSection` keyed by its id and the party code, and true
otherwise.  It is a pure function of the read-only `Env` (its type
produces no store operation and no state), hence idempotent. -/
theorem claim_C4 (env : Env) (partyCode : String) :
    (env.statements = [] → checkForStatement env partyCode = false) ∧
    (∀ st, latestStatement env = some st →
      sectionFor env st.id partyCode = none →
      checkForStatement env partyCode = false) ∧
    (∀ st r, latestStatement env = some st →
      sectionFor env st.id partyCode = some r →
      checkForStatement env partyCode = true) := by
  refine ⟨?_, ?_, ?_⟩
  · intro h
    rw [checkForStatement, latestStatement_nil h]
  · intro st hst hsec
    rw [checkForStatement, hst]
    dsimp only
    rw [hsec]
    rfl
  · intro st r hst hsec
    rw [checkForStatement, hst]
    dsimp only
    rw [hsec]
    rfl

/-- Witness for claim C4: in `envOk` the latest statement is statement 1
and it has a section for "C100", so the check returns true. -/
theorem claim_C4_witness : checkForStatement envOk "C100" = true :=
  (claim_C4 envOk "C100").2.2 { id := 1, statementDate := 5 }
    { statementId := 1, partyCode := "C100" } (by decide) (by decide)

/-! ## Claim C9 -/

/-- Every field value matches the empty candidate pattern. -/
theorem fieldMatches_emptyPattern (v : String) :
    fieldMatches (searchPatterns []) (some v) = true := by
  rw [show fieldMatches (searchPatterns []) (some v) =
      (searchPatterns []).any (fun p => jsRegexTest (escapeRegex p) v.toList)
    from rfl]
  rw [List.any_eq_true]
  exact ⟨[], by decide, (jsRegexTest_escape [] v.toList).mpr ⟨[], v.toList, by simp⟩⟩

/-- Claim C9: for a raw sender identifier with no digit characters the
canonical digit string is empty, the candidates are the empty string
(three times) and "()" (twice), the empty pattern matches every stored
field value, and therefore `findPartyByPhoneNumber` returns some
customer record whenever the store contains any record with a present
name or locality field, rather than returning none. -/
theorem claim_C9 (sender : List Char) (hnd : ∀ c ∈ sender, c.isDigit = false)
    (env : Env)
    (hp : ∃ p ∈ env.parties,
      p.customerName.isSome = true ∨ p.city.isSome = true) :
    stripNonDigits sender = [] ∧
    searchPatterns [] = [[], [], [], ['(', ')'], ['(', ')']] ∧
    (∀ s : List Char, jsRegexTest (escapeRegex []) s = true) ∧
    (findPartyByPhoneNumber env (String.mk (stripNonDigits sender))).isSome
      = true := by
  have hstrip : stripNonDigits sender = [] := by
    rw [stripNonDigits, List.filter_eq_nil_iff]
    intro a ha
    simp [hnd a ha]
  refine ⟨hstrip, by decide, ?_, ?_⟩
  · intro s
    exact (jsRegexTest_escape [] s).mpr ⟨[], s, by simp⟩
  · rw [hstrip]
    rw [findPartyByPhoneNumber]
    rw [List.find?_isSome]
    obtain ⟨p, hpmem, hcase⟩ := hp
    refine ⟨p, hpmem, ?_⟩
    rcases hcase with hname | hcity
    · obtain ⟨v, hv⟩ := Option.isSome_iff_exists.mp hname
      have hf : fieldMatches (searchPatterns []) p.customerName = true := by
        rw [hv]; exact fieldMatches_emptyPattern v
      simp [hf]
    · obtain ⟨v, hv⟩ := Option.isSome_iff_exists.mp hcity
      have hf : fieldMatches (searchPatterns []) p.city = true := by
        rw [hv]; exact fieldMatches_emptyPattern v
      simp [hf]

/-- Witness for claim C9: the digit-free sender "abc@host" against
`envOk`, whose single record has a present name field. -/
theorem claim_C9_witness :
    stripNonDigits ("abc@host".toList) = [] ∧
    searchPatterns [] = [[], [], [], ['(', ')'], ['(', ')']] ∧
    (∀ s : List Char, jsRegexTest (escapeRegex []) s = true) ∧
    (findPartyByPhoneNumber envOk
      (String.mk (stripNonDigits ("abc@host".toList)))).isSome = true :=
  claim_C9 ("abc@host".toList) (by decide) envOk
    ⟨partyC100, by decide, Or.inl (by decide)⟩

/-! ## Message-handler-level lemmas -/

/-- Facts about a full run from an arbitrary start state: the trace only
grows by timestamped updates, at most two further statuses are written,
a second status write forces FAILED, and `statementSent` is either
untouched or set to true together with PROCESSED. -/
theorem handleAfterInsert_facts (env : Env) (fl : Faults) (pn : String)
    (st : RunState) :
    OpsExtend st (handleAfterInsert env fl pn st) ∧
    (statusSets (handleAfterInsert env fl pn st).ops).length ≤
      (statusSets st.ops).length + 2 ∧
    ((statusSets (handleAfterInsert env fl pn st).ops).length =
        (statusSets st.ops).length + 2 →
      (handleAfterInsert env fl pn st).record.status = "FAILED") ∧
    ((handleAfterInsert env fl pn st).record.statementSent =
        st.record.statementSent ∨
      ((handleAfterInsert env fl pn st).record.statementSent = some true ∧
       (handleAfterInsert env fl pn st).record.status = "PROCESSED")) := by
  unfold handleAfterInsert
  cases hp : processWhatsAppRequest env fl pn st with
  | ok st1 =>
    dsimp only
    obtain ⟨hops, hcases⟩ := processWhatsAppRequest_ok _ _ _ _ _ hp
    rcases hcases with ⟨-, -, hlen, h3⟩ | ⟨m, -, hst, -, hsent, -, hlen⟩
    · refine ⟨hops, by omega, by omega, ?_⟩
      rcases h3 with ⟨-, hsent, -, -⟩ | ⟨-, hsent, -, -⟩ | ⟨hst, hsent, -, -⟩
      · exact Or.inl hsent
      · exact Or.inl hsent
      · exact Or.inr ⟨hsent, hst⟩
    · exact ⟨hops, hlen, fun _ => hst, Or.inl hsent⟩
  | error e =>
    obtain ⟨m2, st1⟩ := e
    dsimp only
    obtain ⟨hops, hsent, hlen, hor, -⟩ := processWhatsAppRequest_err _ _ _ _ _ _ hp
    cases ho : fl.fOuterReply with
    | some m3 =>
      dsimp only
      refine ⟨hops, hlen, fun hl => ?_, Or.inl hsent⟩
      rcases hor with h1 | h1
      · omega
      · exact h1
    | none =>
      dsimp only
      refine ⟨⟨hops.choose, by simpa using hops.choose_spec.1,
        hops.choose_spec.2⟩, by simpa using hlen, fun hl => ?_, ?_⟩
      · rcases hor with h1 | h1
        · simp only [sendReply_ops] at hl; omega
        · simpa using h1
      · exact Or.inl (by simpa using hsent)

/-- Facts about a full run when the FAILED write cannot fault: a
PROCESSED outcome implies the scratch file was removed, and a written
but never-removed scratch file implies the run ended FAILED. -/
theorem handleAfterInsert_scratch (env : Env) (fl : Faults) (pn : String)
    (st : RunState) (hFW : fl.fFailedWrite = none)
    (hW : st.scratchWritten = false) :
    ((handleAfterInsert env fl pn st).record.status = "PROCESSED" →
      (handleAfterInsert env fl pn st).scratchPresent = false) ∧
    ((handleAfterInsert env fl pn st).scratchWritten = true →
      (handleAfterInsert env fl pn st).scratchPresent = true →
      (handleAfterInsert env fl pn st).record.status = "FAILED") := by
  unfold handleAfterInsert
  cases hp : processWhatsAppRequest env fl pn st with
  | ok st1 =>
    dsimp only
    obtain ⟨-, hcases⟩ := processWhatsAppRequest_ok _ _ _ _ _ hp
    rcases hcases with ⟨-, -, -, h3⟩ | ⟨m, -, hst, -, -, -, -⟩
    · rcases h3 with ⟨hst, -, hw, -⟩ | ⟨hst, -, hw, -⟩ | ⟨hst, -, -, hpres⟩
      · constructor
        · intro hc; rw [hst] at hc; exact absurd hc (by decide)
        · intro hc; rw [hw, hW] at hc; exact absurd hc (by decide)
      · constructor
        · intro hc; rw [hst] at hc; exact absurd hc (by decide)
        · intro hc; rw [hw, hW] at hc; exact absurd hc (by decide)
      · constructor
        · intro _; exact hpres
        · intro _ hc; rw [hpres] at hc; exact absurd hc (by decide)
    · constructor
      · intro hc; rw [hst] at hc; exact absurd hc (by decide)
      · intro _ _; exact hst
  | error e =>
    obtain ⟨m2, st1⟩ := e
    dsimp only
    obtain ⟨-, -, -, -, hfailed⟩ := processWhatsAppRequest_err _ _ _ _ _ _ hp
    have hst := hfailed hFW
    cases ho : fl.fOuterReply with
    | some m3 =>
      dsimp only
      constructor
      · intro hc; rw [hst] at hc; exact absurd hc (by decide)
      · intro _ _; exact hst
    | none =>
      dsimp only
      constructor
      · intro hc
        rw [show (sendReply st1 (Reply.text apologyMessage)).record = st1.record
          from rfl, hst] at hc
        exact absurd hc (by decide)
      · intro _ _
        rw [show (sendReply st1 (Reply.text apologyMessage)).record = st1.record
          from rfl]
        exact hst

/-- A true statement check exposes the latest statement and its report
section. -/
theorem checkForStatement_true {env : Env} {pc : String}
    (h : checkForStatement env pc = true) :
    ∃ st r, latestStatement env = some st ∧ sectionFor env st.id pc = some r := by
  rw [checkForStatement] at h
  cases hl : latestStatement env with
  | none => rw [hl] at h; exact Bool.noConfusion h
  | some st =>
    rw [hl] at h
    dsimp only at h
    obtain ⟨r, hr⟩ := Option.isSome_iff_exists.mp h
    exact ⟨st, r, rfl, hr⟩

/-- The fault-free inner try block succeeds when the render service
returns 200. -/
theorem innerBody_noFaults_ok (env : Env) (party : Party) (st : RunState)
    (hrender : env.renderStatus = 200) :
    ∃ st1, innerBody env noFaults party st = .ok st1 := by
  cases hI : innerBody env noFaults party st with
  | ok st1 => exact ⟨st1, hI ▸ rfl⟩
  | error e =>
    exfalso
    unfold innerBody at hI
    dsimp only [noFaults] at hI
    rw [hrender] at hI
    simp at hI

/-- Witness for claim C6 at the ten-digit string "9876543210". -/
theorem claim_C6_witness :
    searchPatterns ("9876543210".toList) =
      ["9876543210".toList, fiveFive ' ' ("9876543210".toList),
       fiveFive '-' ("9876543210".toList), parenWrap ("9876543210".toList),
       parenWrap (fiveFive ' ' ("9876543210".toList))] ∧
    (searchPatterns ("9876543210".toList)).Pairwise (· ≠ ·) :=
  claim_C6 ("9876543210".toList) (by decide) (by decide)

/-! ## Claim C10 -/

/-- Claim C10: the `statementSent` flag is written only by the PROCESSED
transition; the NO_MATCH, NO_STATEMENT, and FAILED terminal updates
never set it, so in every run — under arbitrary fault injection — a
final record with `statementSent = true` has status PROCESSED. -/
theorem claim_C10 (env : Env) (fl : Faults) (sender msgBody : String) :
    (runMessage env fl sender msgBody).record.statementSent = some true →
    (runMessage env fl sender msgBody).record.status = "PROCESSED" := by
  intro h
  obtain ⟨-, -, -, hsent⟩ := handleAfterInsert_facts env fl
    (String.mk (stripNonDigits sender.toList))
    (initState (String.mk (stripNonDigits sender.toList)) msgBody.trim)
  rcases hsent with h1 | ⟨-, h2⟩
  · rw [show (runMessage env fl sender msgBody) = handleAfterInsert env fl
      (String.mk (stripNonDigits sender.toList))
      (initState (String.mk (stripNonDigits sender.toList)) msgBody.trim)
      from rfl, h1] at h
    exact Option.noConfusion h
  · exact h2

/-- Witness for claim C10: the fully successful run delivers the
statement and ends PROCESSED with the flag set. -/
theorem claim_C10_witness :
    (runMessage envOk noFaults "919876543210@c.us" "hi").record.statementSent
      = some true ∧
    (runMessage envOk noFaults "919876543210@c.us" "hi").record.status
      = "PROCESSED" :=
  ⟨by decide, claim_C10 envOk noFaults "919876543210@c.us" "hi" (by decide)⟩

/-! ## Claim C8 -/

/-- Claim C8, counterexample: the claim says the status is mutated at
most once after creation.  With no matching party and a faulting
NO_MATCH reply, the status of the record is written twice — first NO_MATCH,
then FAILED by the catch handler — so the terminal NO_MATCH status was
followed by a further transition. -/
theorem claim_C8_counterexample :
    statusSets (runMessage envEmpty flNoMatchReply "919876543210@c.us" "hi").ops
      = ["NO_MATCH", "FAILED"] ∧
    (runMessage envEmpty flNoMatchReply "919876543210@c.us" "hi").record.status
      = "FAILED" := by
  decide

/-- Claim C8, amended: every record is created with status RECEIVED, the
record is never deleted, every update sets the last-update timestamp,
and the status is mutated at most twice more — a second mutation occurs
only when a reply sent after a terminal update faults, and it always
overwrites the status with FAILED. -/
theorem claim_C8 (env : Env) (fl : Faults) (sender msgBody : String) :
    ((runMessage env fl sender msgBody).ops.head? =
      some (DbOp.insert (mkRequestRecord
        (String.mk (stripNonDigits sender.toList)) msgBody.trim 0)) ∧
     (mkRequestRecord (String.mk (stripNonDigits sender.toList))
        msgBody.trim 0).status = "RECEIVED") ∧
    (∀ op ∈ (runMessage env fl sender msgBody).ops, isDel op = false) ∧
    (∀ f, DbOp.update f ∈ (runMessage env fl sender msgBody).ops →
      f.updatedAt.isSome = true) ∧
    (statusSets (runMessage env fl sender msgBody).ops).length ≤ 2 ∧
    ((statusSets (runMessage env fl sender msgBody).ops).length = 2 →
      (runMessage env fl sender msgBody).record.status = "FAILED") := by
  obtain ⟨hops, hlen, hfail, -⟩ := handleAfterInsert_facts env fl
    (String.mk (stripNonDigits sender.toList))
    (initState (String.mk (stripNonDigits sender.toList)) msgBody.trim)
  have hrw : runMessage env fl sender msgBody = handleAfterInsert env fl
      (String.mk (stripNonDigits sender.toList))
      (initState (String.mk (stripNonDigits sender.toList)) msgBody.trim) := rfl
  obtain ⟨l, hl, hprop⟩ := hops
  rw [hrw]
  refine ⟨⟨?_, rfl⟩, ?_, ?_, ?_, ?_⟩
  · rw [hl]
    rfl
  · exact not_del_of_opsExtend ⟨l, hl, hprop⟩ (by
      intro op hop
      rw [show (initState (String.mk (stripNonDigits sender.toList))
        msgBody.trim).ops = [DbOp.insert (mkRequestRecord
        (String.mk (stripNonDigits sender.toList)) msgBody.trim 0)] from rfl,
        List.mem_singleton] at hop
      subst hop
      rfl)
  · intro f hf
    rw [hl] at hf
    rcases List.mem_append.mp hf with hmem | hmem
    · rw [show (initState (String.mk (stripNonDigits sender.toList))
        msgBody.trim).ops = [DbOp.insert (mkRequestRecord
        (String.mk (stripNonDigits sender.toList)) msgBody.trim 0)] from rfl,
        List.mem_singleton] at hmem
      exact DbOp.noConfusion hmem
    · obtain ⟨f', heq, hsome⟩ := hprop _ hmem
      injection heq with heq
      rw [heq]
      exact hsome
  · have h0 : (statusSets (initState (String.mk (stripNonDigits sender.toList))
      msgBody.trim).ops).length = 0 := rfl
    omega
  · intro h2
    apply hfail
    have h0 : (statusSets (initState (String.mk (stripNonDigits sender.toList))
      msgBody.trim).ops).length = 0 := rfl
    omega

/-- Witness instantiation of the amended theorem of claim C8 at the fully
successful concrete run. -/
theorem claim_C8_witness :
    ((runMessage envOk noFaults "919876543210@c.us" "hi").ops.head? =
      some (DbOp.insert (mkRequestRecord
        (String.mk (stripNonDigits ("919876543210@c.us").toList)) ("hi").trim 0)) ∧
     (mkRequestRecord (String.mk (stripNonDigits ("919876543210@c.us").toList))
        ("hi").trim 0).status = "RECEIVED") ∧
    (∀ op ∈ (runMessage envOk noFaults "919876543210@c.us" "hi").ops,
      isDel op = false) ∧
    (∀ f, DbOp.update f ∈ (runMessage envOk noFaults "919876543210@c.us" "hi").ops →
      f.updatedAt.isSome = true) ∧
    (statusSets (runMessage envOk noFaults "919876543210@c.us" "hi").ops).length ≤ 2 ∧
    ((statusSets (runMessage envOk noFaults "919876543210@c.us" "hi").ops).length = 2 →
      (runMessage envOk noFaults "919876543210@c.us" "hi").record.status = "FAILED") :=
  claim_C8 envOk noFaults "919876543210@c.us" "hi"

/-! ## Claim C2 -/

/-- Claim C2, counterexample: the claim says the scratch file is removed
regardless of whether sending succeeded and that a cleanup failure is
not fatal.  In fact (i) when sending the document reply fails the file
has been written but is never removed and the run ends FAILED, and
(ii) when the cleanup `unlink` itself fails the fault propagates and
the terminal status of the run becomes FAILED instead of PROCESSED. -/
theorem claim_C2_counterexample :
    ((runMessage envOk flReply2 "919876543210@c.us" "hi").scratchWritten = true ∧
     (runMessage envOk flReply2 "919876543210@c.us" "hi").scratchPresent = true ∧
     (runMessage envOk flReply2 "919876543210@c.us" "hi").record.status
       = "FAILED") ∧
    ((runMessage envOk flUnlink "919876543210@c.us" "hi").record.status
       = "FAILED" ∧
     (runMessage envOk flUnlink "919876543210@c.us" "hi").record.statementSent
       = none) := by
  decide

/-- Claim C2, amended: in `generateAndSendStatement` the scratch file is
removed only after both replies succeed; as long as the catch handler's
FAILED write is not itself the faulting step, a PROCESSED outcome
guarantees the scratch file was removed, and a written scratch file
that was never removed means the run ended FAILED (both a send failure
and a cleanup failure are fatal for the run). -/
theorem claim_C2 (env : Env) (fl : Faults) (sender msgBody : String)
    (hFW : fl.fFailedWrite = none) :
    ((runMessage env fl sender msgBody).record.status = "PROCESSED" →
      (runMessage env fl sender msgBody).scratchPresent = false) ∧
    ((runMessage env fl sender msgBody).scratchWritten = true →
      (runMessage env fl sender msgBody).scratchPresent = true →
      (runMessage env fl sender msgBody).record.status = "FAILED") :=
  handleAfterInsert_scratch env fl (String.mk (stripNonDigits sender.toList))
    (initState (String.mk (stripNonDigits sender.toList)) msgBody.trim) hFW rfl

/-- Witness instantiation of the amended theorem of claim C2, with the
document-send fault injected. -/
theorem claim_C2_witness :
    ((runMessage envOk flReply2 "919876543210@c.us" "hi").record.status
        = "PROCESSED" →
      (runMessage envOk flReply2 "919876543210@c.us" "hi").scratchPresent
        = false) ∧
    ((runMessage envOk flReply2 "919876543210@c.us" "hi").scratchWritten = true →
      (runMessage envOk flReply2 "919876543210@c.us" "hi").scratchPresent = true →
      (runMessage envOk flReply2 "919876543210@c.us" "hi").record.status
        = "FAILED") :=
  claim_C2 envOk flReply2 "919876543210@c.us" "hi" rfl

/-! ## Claim C3 -/

/-- Claim C3: if any fault occurs after the record is created and before
an explicit terminal status is written — provided the FAILED write and
the apology reply themselves succeed — then `processWhatsAppRequest`
returns normally (the fault is not rethrown past the per-message
boundary), the record is completed FAILED with an outcome message
carrying the description of the fault, exactly one generic apology reply is
sent, and in every case the record is never left at RECEIVED. -/
theorem claim_C3 (env : Env) (fl : Faults) (pn msgBody : String)
    (hFW : fl.fFailedWrite = none) (hAR : fl.fApologyReply = none) :
    ∃ st1, processWhatsAppRequest env fl pn (initState pn msgBody) = .ok st1 ∧
      st1.record.status ≠ "RECEIVED" ∧
      ∀ m, st1.caughtFault = some m →
        st1.record.status = "FAILED" ∧
        st1.record.responseMessage = some ("Error: " ++ m) ∧
        countApologies st1.replies = 1 := by
  cases htb : tryBody env fl pn (initState pn msgBody) with
  | ok stX =>
    obtain ⟨hops, hreps, hcf, hcases⟩ := tryBody_ok _ _ _ _ _ htb
    refine ⟨stX, ?_, ?_, ?_⟩
    · unfold processWhatsAppRequest
      rw [htb]
    · rcases hcases with ⟨hst, -⟩ | ⟨hst, -⟩ | ⟨hst, -⟩ <;> rw [hst] <;> decide
    · intro m hm
      rw [hcf] at hm
      exact Option.noConfusion hm
  | error e =>
    obtain ⟨m0, stX⟩ := e
    obtain ⟨hops, hreps, hcf, hsent, hlen⟩ := tryBody_err _ _ _ _ _ _ htb
    refine ⟨sendReply (doUpdate { stX with caughtFault := some m0 }
        (failedFields m0 stX.clock)) (Reply.text apologyMessage), ?_, ?_, ?_⟩
    · unfold processWhatsAppRequest
      rw [htb]
      dsimp only
      rw [hFW]
      dsimp only
      rw [hAR]
    · intro hc
      have hc2 : "FAILED" = "RECEIVED" := by
        simp only [sendReply_record, doUpdate_record, applyUpdate_status,
          failedFields, Option.getD_some] at hc
        exact hc
      exact absurd hc2 (by decide)
    · intro m hm
      simp only [sendReply_caughtFault, doUpdate_caughtFault] at hm
      have hmm : m0 = m := by
        have : some m0 = some m := hm
        injection this
      subst hmm
      refine ⟨by simp [failedFields], by simp [failedFields], ?_⟩
      rw [countApologies_sendApology]
      have h1 : countApologies (doUpdate { stX with caughtFault := some m0 }
          (failedFields m0 stX.clock)).replies = countApologies stX.replies := rfl
      rw [h1, countApologies_of_repliesExtend hreps]
      rfl

/-- Witness for claim C3: the lookup fault "database unreachable" at an
empty environment is caught, completed FAILED with the description in
the outcome message, and answered by exactly one apology. -/
theorem claim_C3_witness :
    ∃ st1, processWhatsAppRequest envEmpty flFind "9876543210"
        (initState "9876543210" "hi") = .ok st1 ∧
      st1.record.status ≠ "RECEIVED" ∧
      ∀ m, st1.caughtFault = some m →
        st1.record.status = "FAILED" ∧
        st1.record.responseMessage = some ("Error: " ++ m) ∧
        countApologies st1.replies = 1 :=
  claim_C3 envEmpty flFind "9876543210" "hi" rfl rfl

/-! ## Claim C7 -/

/-- Claim C7: when the sender matches a customer record, the latest
statement has a ReportSection for the customer's key, and the render
service answers 200, the fault-free run completes the record PROCESSED
with `statementSent = true` and the sender receives exactly two replies
in order — the introductory text, then the document whose caption names
the customer key. -/
theorem claim_C7 (env : Env) (pn msgBody : String) (party : Party)
    (hfind : findPartyByPhoneNumber env pn = some party)
    (hcheck : checkForStatement env party.code = true)
    (hrender : env.renderStatus = 200) :
    ∃ st1, processWhatsAppRequest env noFaults pn (initState pn msgBody)
        = .ok st1 ∧
      st1.record.status = "PROCESSED" ∧
      st1.record.statementSent = some true ∧
      st1.replies = [Reply.text (introMessage party),
        Reply.doc (captionMessage party.code)] := by
  obtain ⟨latest, r, hlat, hsec⟩ := checkForStatement_true hcheck
  obtain ⟨stI, hI⟩ := innerBody_noFaults_ok env party
    (doUpdate (initState pn msgBody)
      (matchFields party (initState pn msgBody).clock)) hrender
  have hgen : generateAndSendStatement env noFaults party
      (doUpdate (initState pn msgBody)
        (matchFields party (initState pn msgBody).clock)) = .ok stI := by
    unfold generateAndSendStatement
    rw [show noFaults.fLatestRead = none from rfl]
    dsimp only
    rw [hlat]
    dsimp only
    rw [show noFaults.fSectionRead = none from rfl]
    dsimp only
    rw [hsec]
    dsimp only
    rw [hI]
  have htb : tryBody env noFaults pn (initState pn msgBody) = .ok stI := by
    unfold tryBody
    rw [show noFaults.fFind = none from rfl]
    dsimp only
    rw [hfind]
    dsimp only
    rw [show noFaults.fMatchWrite = none from rfl]
    dsimp only
    rw [show noFaults.fCheck = none from rfl]
    dsimp only
    rw [hcheck, if_neg (by decide)]
    exact hgen
  have hrun : processWhatsAppRequest env noFaults pn (initState pn msgBody)
      = .ok stI := by
    unfold processWhatsAppRequest
    rw [htb]
  obtain ⟨hrec, hops, hreps, hw, hp, hcf, hck⟩ := innerBody_ok _ _ _ _ _ hI
  refine ⟨stI, hrun, ?_, ?_, ?_⟩
  · rw [hrec]
    simp [processedFields]
  · rw [hrec]
    simp [processedFields]
  · rw [hreps]
    rfl

/-- Witness for claim C7 at the concrete success environment. -/
theorem claim_C7_witness :
    ∃ st1, processWhatsAppRequest envOk noFaults "919876543210"
        (initState "919876543210" "hi") = .ok st1 ∧
      st1.record.status = "PROCESSED" ∧
      st1.record.statementSent = some true ∧
      st1.replies = [Reply.text (introMessage partyC100),
        Reply.doc (captionMessage partyC100.code)] :=
  claim_C7 envOk "919876543210" "hi" partyC100 (by decide) (by decide) rfl

end SMT
